import Mathlib

/-!
Shallow embedding of `lms/djangoapps/teams/csv.py` (class
`TeamMembershipImportManager`), the CSV-driven bulk team-membership
importer, together with theorems settling the frozen claims about it.

Modelling conventions:
* Django model objects become plain structures (`User`, `CourseTeam`).
* The database visible to the importer is a `Database` value; queries
  (`User.objects.get`, `CourseTeam.objects.filter`,
  `CourseTeamMembership.get_memberships`, `CourseEnrollment.is_enrolled`)
  become pure lookups on it.
* Python dicts become association lists; dict construction by iteration
  lets later keys overwrite earlier ones, so lookups scan the reversed
  list (last binding wins).
* The manager's mutable fields are threaded explicitly through the
  validation loop (`LoopState`) and the commit loop (`CommitState`).
* `add_user_to_team`'s local variable `team`, which the source never
  binds in the cache-hit branch, is an `Option TeamRef` carried through
  the per-row cell loop; reading it while `none` models the
  `UnboundLocalError` the interpreter would raise, which aborts the run
  (modelled as `returned = none`).
* One run of `set_team_membership_from_csv` starts from the state
  `__init__` establishes (empty error list, zero counter), with
  `max_errors` left as a parameter since callers may set it.
-/

namespace TeamsCsv

/-- A Django auth user, as far as the importer reads it. -/
structure User where
  id : Nat
  username : String
  email : String
deriving DecidableEq, Repr

/-- A `CourseTeam` row: name, owning teamset (`topic_id`), external id and
current member user-ids (`team.users`). -/
structure CourseTeam where
  name : String
  topic_id : String
  team_id : String
  member_ids : List Nat
deriving DecidableEq, Repr

/-- One teamset of `course.teams_configuration.teamsets`. The per-teamset
`max_team_size` is part of the configuration data model but is never read
by the importer. -/
structure TeamsetConfig where
  teamset_id : String
  max_team_size : Option Nat
deriving DecidableEq, Repr

/-- The `course.teams_configuration` object. -/
structure TeamsConfiguration where
  teamsets : List TeamsetConfig
  default_max_team_size : Option Nat
deriving DecidableEq, Repr

/-- The storage state the importer queries: users, the set of user ids
enrolled in this course, and the course's teams (memberships are the
teams' member lists). -/
structure Database where
  users : List User
  enrolled_user_ids : List Nat
  course_teams : List CourseTeam
deriving DecidableEq, Repr

/-- One `csv.DictReader` record: the cell values keyed by header name. -/
structure Row where
  cells : List (String × String)
deriving DecidableEq, Repr

/-- Dictionary lookup on an association list built by iteration, where a
later binding for the same key overwrites an earlier one. -/
def dict_lookup {α β : Type} [DecidableEq α] (m : List (α × β)) (k : α) : Option β :=
  (m.reverse.find? (fun p => decide (p.1 = k))).map Prod.snd

/-- Reading `row[c]`, with a missing or `None` cell behaving as empty. -/
def Row.get (r : Row) (c : String) : String :=
  (dict_lookup r.cells c).getD ""

/-- Reading `row['user']`. -/
def Row.user (r : Row) : String :=
  r.get "user"

/-- The parsed input file: `reader.fieldnames` and the data records. -/
structure InputFile where
  header : List String
  rows : List Row
deriving DecidableEq, Repr

/-- Error message of `validate_teamsets` for a duplicated teamset id. -/
def dup_teamset_msg (t : String) : String :=
  "Teamset with id " ++ t ++ " is duplicated."

/-- Error message of `validate_teamsets` for an unknown teamset id. -/
def unknown_teamset_msg (t : String) : String :=
  "Teamset with id " ++ t ++ " does not exist."

/-- Error message of `get_user` for an unresolvable identifier. -/
def unresolved_user_msg (n : String) : String :=
  "Username or email " ++ n ++ " does not exist."

/-- Error message of `validate_user_enrolled_in_course`. -/
def not_enrolled_msg (u : String) : String :=
  "User " ++ u ++ " is not enrolled in this course."

/-- Error message of `is_username_unique`. -/
def dup_username_msg (u : String) : String :=
  "Username " ++ u ++ " was found more than once in input file."

/-- Error message of `validate_user_assignment_to_team_and_teamset` for a
pre-existing or pending membership in the teamset. -/
def already_member_msg (u : String) (ts : String) : String :=
  "The user " ++ u ++ " is already a member of a team inside teamset " ++ ts ++ " in this course."

/-- Error message of `validate_user_assignment_to_team_and_teamset` for a
full team. -/
def team_full_msg (tid : String) : String :=
  "Team " ++ tid ++ " is already full."

/-- Embedding of `load_course_team_memberships`: the keys of the
`existing_course_team_memberships` dict, `(user_id, teamset_id)` for every
membership in the course (the stored team id is never read back). -/
def load_course_team_memberships (db : Database) : List (Nat × String) :=
  (db.course_teams.map (fun t => t.member_ids.map (fun u => (u, t.topic_id)))).flatten

/-- Embedding of `load_course_teams`: the `existing_course_teams` dict,
keyed by `(team.name, team.topic_id)`. -/
def load_course_teams (db : Database) : List ((String × String) × CourseTeam) :=
  db.course_teams.map (fun t => ((t.name, t.topic_id), t))

/-- Embedding of `load_user_ids_by_teamset_id`: for each header teamset,
the ids of users already holding any membership in that teamset. -/
def load_user_ids_by_teamset_id (db : Database) (teamset_ids : List String) :
    List (String × List Nat) :=
  teamset_ids.map (fun ts =>
    (ts, ((db.course_teams.filter (fun t => decide (t.topic_id = ts))).map
      (fun t => t.member_ids)).flatten))

/-- Reading `self.user_ids_by_teamset_id[teamset_id]` (the set of ids). -/
def lookup_ids (m : List (String × List Nat)) (ts : String) : List Nat :=
  (dict_lookup m ts).getD []

/-- Performing `self.user_ids_by_teamset_id[teamset_id].add(user_id)`. -/
def insert_id (m : List (String × List Nat)) (ts : String) (v : Nat) :
    List (String × List Nat) :=
  m.map (fun p => if p.1 = ts then (p.1, if v ∈ p.2 then p.2 else v :: p.2) else p)

/-- Embedding of `validate_teamsets`' loop over the header teamset ids,
carrying `dupe_set` and the accumulated `validation_errors`. -/
def validate_teamsets_loop (configured : List String) (dupe : List String)
    (errors : List String) : List String → List String × Bool
  | [] => (errors, true)
  | t :: rest =>
    if t ∈ dupe then (errors ++ [dup_teamset_msg t], false)
    else if t ∉ configured then (errors ++ [unknown_teamset_msg t], false)
    else validate_teamsets_loop configured (t :: dupe) errors rest

/-- Embedding of `validate_teamsets`, run against the configured teamset
ids of the course. -/
def validate_teamsets (cfg : TeamsConfiguration) (teamset_ids : List String)
    (errors : List String) : List String × Bool :=
  validate_teamsets_loop (cfg.teamsets.map (fun ts => ts.teamset_id)) [] errors teamset_ids

/-- Embedding of `get_user`: resolve by exact username, then by exact
email; on failure append the error directly to `validation_errors`. -/
def get_user (db : Database) (errors : List String) (user_name : String) :
    Option User × List String :=
  match db.users.find? (fun u => decide (u.username = user_name)) with
  | some u => (some u, errors)
  | none =>
    match db.users.find? (fun u => decide (u.email = user_name)) with
    | some u => (some u, errors)
    | none => (none, errors ++ [unresolved_user_msg user_name])

/-- Embedding of `validate_user_enrolled_in_course`. -/
def validate_user_enrolled_in_course (db : Database) (errors : List String)
    (user : User) : List String × Bool :=
  if user.id ∈ db.enrolled_user_ids then (errors, true)
  else (errors ++ [not_enrolled_msg user.username], false)

/-- Embedding of `add_error_and_check_if_max_exceeded`: append the message
and report whether the error count has reached `max_errors`. -/
def add_error_and_check_if_max_exceeded (max_errors : Nat) (errors : List String)
    (msg : String) : List String × Bool :=
  let errors2 := errors ++ [msg]
  (errors2, decide (max_errors ≤ errors2.length))

/-- Embedding of `is_username_unique`: a repeated username records an
error; the result is `false` (stop processing) only when the threshold is
then reached. -/
def is_username_unique (max_errors : Nat) (errors : List String) (username : String)
    (usernames_found_so_far : List String) : List String × Bool :=
  if username ∈ usernames_found_so_far then
    let r := add_error_and_check_if_max_exceeded max_errors errors (dup_username_msg username)
    if r.2 then (r.1, false) else (r.1, true)
  else (errors, true)

/-- The manager state read and written by
`validate_user_assignment_to_team_and_teamset`. -/
structure ValState where
  errors : List String
  user_ids_by_teamset_id : List (String × List Nat)
deriving DecidableEq, Repr

/-- The fixed context of one run: course configuration, storage, header
teamset ids, the two preloaded caches and the error threshold. -/
structure Ctx where
  cfg : TeamsConfiguration
  db : Database
  teamset_ids : List String
  memberships : List (Nat × String)
  teams_cache : List ((String × String) × CourseTeam)
  max_errors : Nat

/-- Embedding of one iteration of the cell loop in
`validate_user_assignment_to_team_and_teamset`; the `Bool` is `false`
exactly when the source executes `return False`. -/
def validate_cell (ctx : Ctx) (user : User) (row : Row) (teamset_id : String)
    (st : ValState) : ValState × Bool :=
  let team_name := row.get teamset_id
  if team_name = "" then (st, true)
  else
    match dict_lookup ctx.teams_cache (team_name, teamset_id) with
    | none =>
      let all_teamset_user_ids := lookup_ids st.user_ids_by_teamset_id teamset_id
      if user.id ∈ all_teamset_user_ids then
        let r := add_error_and_check_if_max_exceeded ctx.max_errors st.errors
          (already_member_msg user.username teamset_id)
        if r.2 then ({ st with errors := r.1 }, false)
        else
          ({ errors := r.1,
             user_ids_by_teamset_id := insert_id st.user_ids_by_teamset_id teamset_id user.id },
           true)
      else
        ({ st with
           user_ids_by_teamset_id := insert_id st.user_ids_by_teamset_id teamset_id user.id },
         true)
    | some team =>
      let step1 :=
        match ctx.cfg.default_max_team_size with
        | none => (st.errors, true)
        | some m =>
          if team.member_ids.length ≥ m then
            let r := add_error_and_check_if_max_exceeded ctx.max_errors st.errors
              (team_full_msg team.team_id)
            (r.1, !r.2)
          else (st.errors, true)
      if step1.2 then
        if (user.id, team.topic_id) ∈ ctx.memberships then
          let r := add_error_and_check_if_max_exceeded ctx.max_errors step1.1
            (already_member_msg user.username team.topic_id)
          if r.2 then ({ st with errors := r.1 }, false)
          else ({ st with errors := r.1 }, true)
        else ({ st with errors := step1.1 }, true)
      else ({ st with errors := step1.1 }, false)

/-- Embedding of the cell loop of
`validate_user_assignment_to_team_and_teamset` over the header teamsets. -/
def validate_assignment_loop (ctx : Ctx) (user : User) (row : Row) :
    List String → ValState → ValState × Bool
  | [], st => (st, true)
  | ts :: rest, st =>
    match validate_cell ctx user row ts st with
    | (st2, false) => (st2, false)
    | (st2, true) => validate_assignment_loop ctx user row rest st2

/-- Embedding of `validate_user_assignment_to_team_and_teamset`. -/
def validate_user_assignment_to_team_and_teamset (ctx : Ctx) (user : User)
    (row : Row) (st : ValState) : ValState × Bool :=
  validate_assignment_loop ctx user row ctx.teamset_ids st

/-- The manager state threaded through the row loop of
`set_team_membership_from_csv`. -/
structure LoopState where
  errors : List String
  user_ids_by_teamset_id : List (String × List Nat)
  csv_usernames : List String
  row_dictionaries : List (User × Row)
deriving Repr

/-- Outcome of the row loop: an early `return False`, or falling through
to the commit decision. -/
inductive LoopResult
  | earlyFalse (st : LoopState)
  | done (st : LoopState)
deriving Repr

/-- Outcome of one iteration of the row loop: fall through to the next
row (`continue` or normal end of body), or `return False`. -/
inductive RowStep
  | cont (st : LoopState)
  | early (st : LoopState)
deriving Repr

/-- Embedding of one iteration of the `for row in reader` loop of
`set_team_membership_from_csv`. -/
def process_row (ctx : Ctx) (row : Row) (st : LoopState) : RowStep :=
  let username := row.user
  if username = "" then .cont st
  else
    match is_username_unique ctx.max_errors st.errors username st.csv_usernames with
    | (errors2, false) => .early { st with errors := errors2 }
    | (errors2, true) =>
      let csv2 := if username ∈ st.csv_usernames then st.csv_usernames
                  else st.csv_usernames ++ [username]
      match get_user ctx.db errors2 username with
      | (none, errors3) =>
        .cont { st with errors := errors3, csv_usernames := csv2 }
      | (some user, errors3) =>
        match validate_user_enrolled_in_course ctx.db errors3 user with
        | (errors4, false) =>
          .cont { st with errors := errors4, csv_usernames := csv2 }
        | (errors4, true) =>
          match validate_user_assignment_to_team_and_teamset ctx user row
            { errors := errors4, user_ids_by_teamset_id := st.user_ids_by_teamset_id } with
          | (vst, false) =>
            .early { st with
                     errors := vst.errors,
                     user_ids_by_teamset_id := vst.user_ids_by_teamset_id,
                     csv_usernames := csv2 }
          | (vst, true) =>
            .cont { errors := vst.errors,
                    user_ids_by_teamset_id := vst.user_ids_by_teamset_id,
                    csv_usernames := csv2,
                    row_dictionaries := st.row_dictionaries ++ [(user, row)] }

/-- Embedding of the `for row in reader` loop of
`set_team_membership_from_csv`. -/
def process_rows (ctx : Ctx) : List Row → LoopState → LoopResult
  | [], st => .done st
  | row :: rest, st =>
    match process_row ctx row st with
    | .cont st2 => process_rows ctx rest st2
    | .early st2 => .earlyFalse st2

/-- Identity of the team the commit phase's local `team` variable holds:
a team fetched nowhere (the source never reads the cache here) or a team
created by the `idx`-th `CourseTeam.create` call of this commit phase. -/
inductive TeamRef
  | existing (t : CourseTeam)
  | created (idx : Nat) (name : String) (topic_id : String)
deriving DecidableEq, Repr

/-- Mutating writes performed by the commit phase, in order. -/
structure CommitState where
  created_teams : List (Nat × String × String)
  memberships_added : List (Nat × TeamRef)
  events : List (TeamRef × Nat)
  number_of_record_added : Nat
deriving DecidableEq, Repr

/-- Embedding of the cell loop of `add_user_to_team`. The carried
`team : Option TeamRef` is the function's local `team` variable, bound
only by the `CourseTeam.create` branch; `team.add_user(user)` with the
variable still unbound raises, reported as `(state so far, true)`. -/
def commit_cells (ctx : Ctx) (user : User) (user_row : Row) :
    List String → Option TeamRef → CommitState → CommitState × Bool
  | [], _, cs => (cs, false)
  | ts :: rest, team, cs =>
    let team_name := user_row.get ts
    if team_name = "" then commit_cells ctx user user_row rest team cs
    else
      let step :=
        if (dict_lookup ctx.teams_cache (team_name, ts)).isNone then
          let idx := cs.created_teams.length
          (some (TeamRef.created idx team_name ts),
           { cs with created_teams := cs.created_teams ++ [(idx, team_name, ts)] })
        else (team, cs)
      match step.1 with
      | none => (step.2, true)
      | some t =>
        commit_cells ctx user user_row rest (some t)
          { step.2 with
            memberships_added := step.2.memberships_added ++ [(user.id, t)],
            events := step.2.events ++ [(t, user.id)],
            number_of_record_added := step.2.number_of_record_added + 1 }

/-- Embedding of `add_user_to_team` for one validated row; the local
`team` starts unbound on every call. -/
def add_user_to_team (ctx : Ctx) (cs : CommitState) (user_row : User × Row) :
    CommitState × Bool :=
  commit_cells ctx user_row.1 user_row.2 ctx.teamset_ids none cs

/-- Embedding of the commit loop of `set_team_membership_from_csv`; an
exception in `add_user_to_team` propagates. -/
def commit_rows (ctx : Ctx) : List (User × Row) → CommitState → CommitState × Bool
  | [], cs => (cs, false)
  | ur :: rest, cs =>
    match add_user_to_team ctx cs ur with
    | (cs2, true) => (cs2, true)
    | (cs2, false) => commit_rows ctx rest cs2

/-- Observable outcome of one run: `returned = some b` for a normal
return, `none` when the commit phase raised; plus the error list, the
counter and the mutating writes performed. -/
structure RunResult where
  returned : Option Bool
  validation_errors : List String
  number_of_record_added : Nat
  created_teams : List (Nat × String × String)
  memberships_added : List (Nat × TeamRef)
  events : List (TeamRef × Nat)
deriving DecidableEq, Repr

/-- A `RunResult` for a `return False` taken with the given error list:
no mutating write has happened. -/
def failure_result (errors : List String) : RunResult :=
  { returned := some false, validation_errors := errors,
    number_of_record_added := 0, created_teams := [],
    memberships_added := [], events := [] }

/-- The context `set_team_membership_from_csv` works in once the teamset
gate has passed: the three caches are loaded here. -/
def mk_ctx (cfg : TeamsConfiguration) (db : Database) (max_errors : Nat)
    (teamset_ids : List String) : Ctx :=
  { cfg := cfg, db := db, teamset_ids := teamset_ids,
    memberships := load_course_team_memberships db,
    teams_cache := load_course_teams db, max_errors := max_errors }

/-- The loop state at the top of the row loop of a fresh run. -/
def mk_st0 (db : Database) (teamset_ids : List String) : LoopState :=
  { errors := [],
    user_ids_by_teamset_id := load_user_ids_by_teamset_id db teamset_ids,
    csv_usernames := [], row_dictionaries := [] }

/-- Embedding of the part of `set_team_membership_from_csv` after the
teamset gate: the row loop, the commit decision and the commit loop. -/
def run_after_gate (ctx : Ctx) (rows : List Row) (st0 : LoopState) : RunResult :=
  match process_rows ctx rows st0 with
  | .earlyFalse st => failure_result st.errors
  | .done st =>
    if st.errors = [] then
      let c := commit_rows ctx st.row_dictionaries
        { created_teams := [], memberships_added := [], events := [],
          number_of_record_added := 0 }
      { returned := if c.2 then none else some true,
        validation_errors := st.errors,
        number_of_record_added := c.1.number_of_record_added,
        created_teams := c.1.created_teams,
        memberships_added := c.1.memberships_added,
        events := c.1.events }
    else failure_result st.errors

/-- Embedding of `set_team_membership_from_csv`, run on a freshly
constructed manager (empty error list, zero counter). -/
def set_team_membership_from_csv (cfg : TeamsConfiguration) (db : Database)
    (max_errors : Nat) (input_file : InputFile) : RunResult :=
  let teamset_ids := input_file.header.drop 2
  match validate_teamsets cfg teamset_ids [] with
  | (errors, false) => failure_result errors
  | (_, true) =>
    run_after_gate (mk_ctx cfg db max_errors teamset_ids) input_file.rows
      (mk_st0 db teamset_ids)

/-- New-team `(name, teamset)` pairs the commit phase creates while
walking the given teamset columns of one row: exactly the non-empty cells
whose pair is absent from the (never-updated) team cache. -/
def row_new_team_pairs (ctx : Ctx) (r : Row) (tss : List String) :
    List (String × String) :=
  tss.filterMap (fun ts =>
    if r.get ts ≠ "" ∧ dict_lookup ctx.teams_cache (r.get ts, ts) = none
    then some (r.get ts, ts) else none)

/-- Property of a loop outcome: the run cannot go on to commit — either
the loop returned early, or the error list is non-empty. -/
def blocksCommit : LoopResult → Prop
  | .earlyFalse _ => True
  | .done st => st.errors ≠ []

/-! Concrete fixtures used by witnesses and counterexamples. -/

/-- Course configuration with a single teamset `ts` that has no
per-teamset maximum, and no course default maximum. -/
def cfgC : TeamsConfiguration :=
  { teamsets := [⟨"ts", none⟩], default_max_team_size := none }

/-- Course configuration with a single teamset `ts` that has no
per-teamset maximum, while the course default maximum is 1. -/
def cfg3 : TeamsConfiguration :=
  { teamsets := [⟨"ts", none⟩], default_max_team_size := some 1 }

/-- Storage with one enrolled user `bob` and one empty team `t1`. -/
def dbC : Database :=
  { users := [⟨1, "bob", "b@x.com"⟩], enrolled_user_ids := [1],
    course_teams := [⟨"t1", "ts", "t1-id", []⟩] }

/-- Storage where team `t1` already has one member (user 99) and `bob` is
enrolled but on no team. -/
def db3 : Database :=
  { users := [⟨1, "bob", "b@x.com"⟩], enrolled_user_ids := [1],
    course_teams := [⟨"t1", "ts", "t1-id", [99]⟩] }

/-- Storage where team `t1` is full (member 99) and `bob` already holds a
membership in teamset `ts` through team `t2`. -/
def db7 : Database :=
  { users := [⟨1, "bob", "b@x.com"⟩], enrolled_user_ids := [1],
    course_teams := [⟨"t1", "ts", "t1-id", [99]⟩, ⟨"t2", "ts", "t2-id", [1]⟩] }

/-- Storage with two enrolled users and one existing empty team `tB`. -/
def db9 : Database :=
  { users := [⟨1, "alice", "a@x.com"⟩, ⟨2, "bob", "b@x.com"⟩],
    enrolled_user_ids := [1, 2],
    course_teams := [⟨"tB", "ts", "tB-id", []⟩] }

/-- Storage with two enrolled users and no teams. -/
def db10 : Database :=
  { users := [⟨1, "alice", "a@x.com"⟩, ⟨2, "bob", "b@x.com"⟩],
    enrolled_user_ids := [1, 2], course_teams := [] }

/-- Storage with one user `bob` who is not enrolled. -/
def dbB : Database :=
  { users := [⟨2, "bob", "b@x.com"⟩], enrolled_user_ids := [], course_teams := [] }

/-- Input whose single row assigns `bob` to team `t1` in teamset `ts`. -/
def fileC : InputFile :=
  { header := ["user", "mode", "ts"], rows := [⟨[("user", "bob"), ("ts", "t1")]⟩] }

/-- Input with two unresolvable users around a not-enrolled one. -/
def fileB : InputFile :=
  { header := ["user", "mode"],
    rows := [⟨[("user", "ghost")]⟩, ⟨[("user", "bob")]⟩, ⟨[("user", "ghost2")]⟩] }

/-- Input whose first row assigns `alice` to the new team `tA` and whose
second row assigns `bob` to the pre-existing team `tB`. -/
def file9 : InputFile :=
  { header := ["user", "mode", "ts"],
    rows := [⟨[("user", "alice"), ("ts", "tA")]⟩, ⟨[("user", "bob"), ("ts", "tB")]⟩] }

/-- Input whose two rows each assign a user to the not-yet-existing team
name `tN` in teamset `ts`. -/
def file10 : InputFile :=
  { header := ["user", "mode", "ts"],
    rows := [⟨[("user", "alice"), ("ts", "tN")]⟩, ⟨[("user", "bob"), ("ts", "tN")]⟩] }

/-- Input naming an unknown teamset `zz` in its header. -/
def file5 : InputFile :=
  { header := ["user", "mode", "zz"], rows := [⟨[("user", "bob")]⟩] }

/-- Input listing the username `bob` on two rows. -/
def file6 : InputFile :=
  { header := ["user", "mode"], rows := [⟨[("user", "bob")]⟩, ⟨[("user", "bob")]⟩] }

end TeamsCsv

namespace TeamsCsv

/-! Helper lemmas about the error accumulator and the teamset gate. -/

lemma add_error_fst (m : Nat) (e : List String) (msg : String) :
    (add_error_and_check_if_max_exceeded m e msg).1 = e ++ [msg] := rfl

lemma add_error_zero (e : List String) (msg : String) :
    add_error_and_check_if_max_exceeded 0 e msg = (e ++ [msg], true) := by
  simp [add_error_and_check_if_max_exceeded]

lemma validate_teamsets_loop_fails (configured : List String) :
    ∀ (tss dupe errors : List String),
      ((∃ t ∈ tss, t ∈ dupe) ∨ ¬ tss.Nodup ∨ ∃ t ∈ tss, t ∉ configured) →
      (validate_teamsets_loop configured dupe errors tss).2 = false ∧
      (validate_teamsets_loop configured dupe errors tss).1.length = errors.length + 1
  | [], dupe, errors, h => by
    simp at h
  | t :: rest, dupe, errors, h => by
    by_cases h1 : t ∈ dupe
    · simp [validate_teamsets_loop, h1]
    · by_cases h2 : t ∈ configured
      · have h3 : (∃ x ∈ rest, x ∈ t :: dupe) ∨ ¬ rest.Nodup ∨ ∃ x ∈ rest, x ∉ configured := by
          rcases h with ⟨x, hx, hxd⟩ | hnd | ⟨x, hx, hxc⟩
          · rcases List.mem_cons.mp hx with rfl | hx
            · exact absurd hxd h1
            · exact Or.inl ⟨x, hx, List.mem_cons_of_mem t hxd⟩
          · rw [List.nodup_cons] at hnd
            push_neg at hnd
            by_cases ht : t ∈ rest
            · exact Or.inl ⟨t, ht, List.mem_cons_self t dupe⟩
            · exact Or.inr (Or.inl (hnd ht))
          · rcases List.mem_cons.mp hx with rfl | hx
            · exact absurd h2 hxc
            · exact Or.inr (Or.inr ⟨x, hx, hxc⟩)
        have ih := validate_teamsets_loop_fails configured rest (t :: dupe) errors h3
        simpa [validate_teamsets_loop, h1, h2] using ih
      · simp [validate_teamsets_loop, h1, h2]

lemma validate_teamsets_fails (cfg : TeamsConfiguration) (tss : List String)
    (h : ¬ tss.Nodup ∨ ∃ t ∈ tss, t ∉ cfg.teamsets.map (fun c => c.teamset_id)) :
    (validate_teamsets cfg tss []).2 = false ∧
    (validate_teamsets cfg tss []).1.length = 1 := by
  have := validate_teamsets_loop_fails (cfg.teamsets.map (fun c => c.teamset_id))
    tss [] [] (Or.inr h)
  simpa [validate_teamsets] using this

/-- C5: a header whose teamset columns contain an unknown or duplicated
teamset id makes the run fail with exactly one accumulated error and no
mutation; the result does not depend on storage or on the data rows (no
cache is loaded, no row is processed). -/
theorem claim_C5_structural_gate (cfg : TeamsConfiguration) (db db' : Database)
    (max_errors : Nat) (file : InputFile) (rows' : List Row)
    (h : ¬ (file.header.drop 2).Nodup
       ∨ ∃ t ∈ file.header.drop 2, t ∉ cfg.teamsets.map (fun c => c.teamset_id)) :
    (set_team_membership_from_csv cfg db max_errors file).returned = some false ∧
    (set_team_membership_from_csv cfg db max_errors file).validation_errors.length = 1 ∧
    (set_team_membership_from_csv cfg db max_errors file).number_of_record_added = 0 ∧
    (set_team_membership_from_csv cfg db max_errors file).created_teams = [] ∧
    (set_team_membership_from_csv cfg db max_errors file).memberships_added = [] ∧
    (set_team_membership_from_csv cfg db max_errors file).events = [] ∧
    set_team_membership_from_csv cfg db' max_errors ⟨file.header, rows'⟩ =
      set_team_membership_from_csv cfg db max_errors file := by
  obtain ⟨hb, hl⟩ := validate_teamsets_fails cfg (file.header.drop 2) h
  cases hv : validate_teamsets cfg (file.header.drop 2) [] with
  | mk e b =>
    rw [hv] at hb hl
    simp only at hb hl
    subst hb
    simp [set_team_membership_from_csv, hv, failure_result, hl]

/-- Witness for C5 at a concrete unknown-teamset header. -/
theorem claim_C5_structural_gate_witness :
    (¬ (file5.header.drop 2).Nodup
       ∨ ∃ t ∈ file5.header.drop 2, t ∉ cfgC.teamsets.map (fun c => c.teamset_id)) ∧
    ((set_team_membership_from_csv cfgC dbC 0 file5).returned = some false ∧
     (set_team_membership_from_csv cfgC dbC 0 file5).validation_errors.length = 1 ∧
     (set_team_membership_from_csv cfgC dbC 0 file5).number_of_record_added = 0 ∧
     (set_team_membership_from_csv cfgC dbC 0 file5).created_teams = [] ∧
     (set_team_membership_from_csv cfgC dbC 0 file5).memberships_added = [] ∧
     (set_team_membership_from_csv cfgC dbC 0 file5).events = [] ∧
     set_team_membership_from_csv cfgC db3 0 ⟨file5.header, []⟩ =
       set_team_membership_from_csv cfgC dbC 0 file5) :=
  ⟨by decide, claim_C5_structural_gate cfgC dbC db3 0 file5 [] (by decide)⟩

/-- C1: whenever a run has recorded any validation error, it returns
`False` and performs no mutating write: no team creation, no membership,
no event, and the added-record counter stays zero. -/
theorem claim_C1_no_mutation_on_error (cfg : TeamsConfiguration) (db : Database)
    (max_errors : Nat) (file : InputFile)
    (h : (set_team_membership_from_csv cfg db max_errors file).validation_errors ≠ []) :
    (set_team_membership_from_csv cfg db max_errors file).returned = some false ∧
    (set_team_membership_from_csv cfg db max_errors file).created_teams = [] ∧
    (set_team_membership_from_csv cfg db max_errors file).memberships_added = [] ∧
    (set_team_membership_from_csv cfg db max_errors file).events = [] ∧
    (set_team_membership_from_csv cfg db max_errors file).number_of_record_added = 0 := by
  cases hv : validate_teamsets cfg (file.header.drop 2) [] with
  | mk e b =>
    cases b with
    | false => simp [set_team_membership_from_csv, hv, failure_result]
    | true =>
      have hrun : set_team_membership_from_csv cfg db max_errors file =
          run_after_gate (mk_ctx cfg db max_errors (file.header.drop 2)) file.rows
            (mk_st0 db (file.header.drop 2)) := by
        simp [set_team_membership_from_csv, hv]
      rw [hrun] at h ⊢
      unfold run_after_gate at h ⊢
      cases hp : process_rows (mk_ctx cfg db max_errors (file.header.drop 2)) file.rows
          (mk_st0 db (file.header.drop 2)) with
      | earlyFalse st => simp [failure_result]
      | done st =>
        rw [hp] at h
        by_cases he : st.errors = []
        · simp [he] at h
        · simp [he, failure_result]

/-- Witness for C1 at a concrete erroring input. -/
theorem claim_C1_no_mutation_on_error_witness :
    (set_team_membership_from_csv cfg3 db3 0 fileC).validation_errors ≠ [] ∧
    ((set_team_membership_from_csv cfg3 db3 0 fileC).returned = some false ∧
     (set_team_membership_from_csv cfg3 db3 0 fileC).created_teams = [] ∧
     (set_team_membership_from_csv cfg3 db3 0 fileC).memberships_added = [] ∧
     (set_team_membership_from_csv cfg3 db3 0 fileC).events = [] ∧
     (set_team_membership_from_csv cfg3 db3 0 fileC).number_of_record_added = 0) :=
  ⟨by decide, claim_C1_no_mutation_on_error cfg3 db3 0 fileC (by decide)⟩

end TeamsCsv

namespace TeamsCsv

/-! Lemmas: an empty error list after a validation step means it was
empty before (errors are only ever appended). -/

lemma is_username_unique_errors_empty {m : Nat} {e : List String} {u : String}
    {s : List String} (h : (is_username_unique m e u s).1 = []) : e = [] := by
  simp only [is_username_unique] at h
  split at h
  · split at h <;> simp_all [add_error_and_check_if_max_exceeded]
  · exact h

lemma get_user_errors_empty {db : Database} {e : List String} {n : String}
    (h : (get_user db e n).2 = []) : e = [] := by
  simp only [get_user] at h
  split at h
  · exact h
  · split at h
    · exact h
    · simp at h

lemma validate_user_enrolled_errors_empty {db : Database} {e : List String}
    {user : User} (h : (validate_user_enrolled_in_course db e user).1 = []) : e = [] := by
  simp only [validate_user_enrolled_in_course] at h
  split at h
  · exact h
  · simp at h

lemma validate_cell_errors_empty {ctx : Ctx} {user : User} {row : Row}
    {ts : String} {st : ValState}
    (h : ((validate_cell ctx user row ts st).1).errors = []) : st.errors = [] := by
  simp only [validate_cell] at h
  repeat' split at h
  all_goals simp_all [add_error_and_check_if_max_exceeded]

lemma validate_assignment_loop_errors_empty (ctx : Ctx) (user : User) (row : Row) :
    ∀ (tss : List String) (st : ValState),
      ((validate_assignment_loop ctx user row tss st).1).errors = [] → st.errors = []
  | [], st, h => h
  | ts :: rest, st, h => by
    simp only [validate_assignment_loop] at h
    cases hc : validate_cell ctx user row ts st with
    | mk st2 b =>
      rw [hc] at h
      cases b with
      | false =>
        simp only at h
        exact validate_cell_errors_empty (show ((validate_cell ctx user row ts st).1).errors = [] by rw [hc]; exact h)
      | true =>
        simp only at h
        have h2 := validate_assignment_loop_errors_empty ctx user row rest st2 h
        exact validate_cell_errors_empty (show ((validate_cell ctx user row ts st).1).errors = [] by rw [hc]; exact h2)

lemma validate_assignment_errors_empty {ctx : Ctx} {user : User} {row : Row}
    {st : ValState}
    (h : ((validate_user_assignment_to_team_and_teamset ctx user row st).1).errors = []) :
    st.errors = [] :=
  validate_assignment_loop_errors_empty ctx user row ctx.teamset_ids st h

end TeamsCsv

namespace TeamsCsv

lemma is_username_unique_errors_empty2 {m : Nat} {e : List String} {u : String}
    {s : List String} (h : (is_username_unique m e u s).1 = []) : e = [] ∧ u ∉ s := by
  simp only [is_username_unique] at h
  split at h
  · split at h <;> simp_all [add_error_and_check_if_max_exceeded]
  · exact ⟨h, by assumption⟩

lemma process_row_cont_errors_empty {ctx : Ctx} {row : Row} {st st2 : LoopState}
    (h : process_row ctx row st = .cont st2) (he : st2.errors = []) :
    st.errors = [] ∧ (row.user = "" ∨ row.user ∉ st.csv_usernames) := by
  simp only [process_row] at h
  split at h
  · rename_i hu
    cases h
    exact ⟨he, Or.inl hu⟩
  · rename_i hu
    cases h1 : is_username_unique ctx.max_errors st.errors row.user st.csv_usernames with
    | mk e2 b =>
      rw [h1] at h
      cases b with
      | false => simp at h
      | true =>
        simp only [] at h
        have he2 : e2 = [] → st.errors = [] ∧ (row.user = "" ∨ row.user ∉ st.csv_usernames) := by
          intro hh
          have h3 := is_username_unique_errors_empty2
            (show (is_username_unique ctx.max_errors st.errors row.user st.csv_usernames).1 = [] by
              rw [h1]; exact hh)
          exact ⟨h3.1, Or.inr h3.2⟩
        cases h2 : get_user ctx.db e2 row.user with
        | mk uo e3 =>
          rw [h2] at h
          cases uo with
          | none =>
            simp only [] at h
            cases h
            apply he2
            exact get_user_errors_empty
              (show (get_user ctx.db e2 row.user).2 = [] by rw [h2]; exact he)
          | some user =>
            simp only [] at h
            cases h3 : validate_user_enrolled_in_course ctx.db e3 user with
            | mk e4 b4 =>
              rw [h3] at h
              cases b4 with
              | false =>
                simp only [] at h
                cases h
                apply he2
                exact get_user_errors_empty
                  (show (get_user ctx.db e2 row.user).2 = [] by
                    rw [h2]
                    exact validate_user_enrolled_errors_empty
                      (show (validate_user_enrolled_in_course ctx.db e3 user).1 = [] by
                        rw [h3]; exact he))
              | true =>
                simp only [] at h
                cases h4 : validate_user_assignment_to_team_and_teamset ctx user row
                    { errors := e4, user_ids_by_teamset_id := st.user_ids_by_teamset_id } with
                | mk vst b5 =>
                  rw [h4] at h
                  cases b5 with
                  | false => simp at h
                  | true =>
                    simp only [] at h
                    cases h
                    apply he2
                    exact get_user_errors_empty
                      (show (get_user ctx.db e2 row.user).2 = [] by
                        rw [h2]
                        exact validate_user_enrolled_errors_empty
                          (show (validate_user_enrolled_in_course ctx.db e3 user).1 = [] by
                            rw [h3]
                            exact validate_assignment_errors_empty
                              (show ((validate_user_assignment_to_team_and_teamset ctx user row
                                { errors := e4,
                                  user_ids_by_teamset_id := st.user_ids_by_teamset_id }).1).errors = [] by
                                rw [h4]; exact he)))

lemma process_row_cont_csv {ctx : Ctx} {row : Row} {st st2 : LoopState}
    (h : process_row ctx row st = .cont st2) :
    st.csv_usernames ⊆ st2.csv_usernames ∧ (row.user ≠ "" → row.user ∈ st2.csv_usernames) := by
  simp only [process_row] at h
  split at h
  · rename_i hu
    cases h
    exact ⟨fun a ha => ha, fun hc => absurd hu hc⟩
  · rename_i hu
    have hcsv : ∀ st3 : LoopState,
        st3.csv_usernames = (if row.user ∈ st.csv_usernames then st.csv_usernames
          else st.csv_usernames ++ [row.user]) →
        st.csv_usernames ⊆ st3.csv_usernames ∧ (row.user ≠ "" → row.user ∈ st3.csv_usernames) := by
      intro st3 h3
      rw [h3]
      split
      · rename_i hmem
        exact ⟨fun a ha => ha, fun _ => hmem⟩
      · exact ⟨fun a ha => List.mem_append_left _ ha,
          fun _ => List.mem_append_right _ (List.mem_singleton.mpr rfl)⟩
    cases h1 : is_username_unique ctx.max_errors st.errors row.user st.csv_usernames with
    | mk e2 b =>
      rw [h1] at h
      cases b with
      | false => simp at h
      | true =>
        simp only [] at h
        cases h2 : get_user ctx.db e2 row.user with
        | mk uo e3 =>
          rw [h2] at h
          cases uo with
          | none =>
            simp only [] at h
            cases h
            exact hcsv _ rfl
          | some user =>
            simp only [] at h
            cases h3 : validate_user_enrolled_in_course ctx.db e3 user with
            | mk e4 b4 =>
              rw [h3] at h
              cases b4 with
              | false =>
                simp only [] at h
                cases h
                exact hcsv _ rfl
              | true =>
                simp only [] at h
                cases h4 : validate_user_assignment_to_team_and_teamset ctx user row
                    { errors := e4, user_ids_by_teamset_id := st.user_ids_by_teamset_id } with
                | mk vst b5 =>
                  rw [h4] at h
                  cases b5 with
                  | false => simp at h
                  | true =>
                    simp only [] at h
                    cases h
                    exact hcsv _ rfl

lemma process_rows_done_errors_empty (ctx : Ctx) :
    ∀ (rows : List Row) (st st2 : LoopState),
      process_rows ctx rows st = .done st2 → st2.errors = [] → st.errors = []
  | [], st, st2, h, he => by
    cases h
    exact he
  | row :: rest, st, st2, h, he => by
    simp only [process_rows] at h
    cases hs : process_row ctx row st with
    | cont st3 =>
      rw [hs] at h
      have h2 := process_rows_done_errors_empty ctx rest st3 st2 h he
      exact (process_row_cont_errors_empty hs h2).1
    | early st3 =>
      rw [hs] at h
      simp at h

end TeamsCsv

namespace TeamsCsv

lemma process_rows_blocks (ctx : Ctx) :
    ∀ (rows : List Row) (st : LoopState),
      (¬ ((rows.map Row.user).filter (fun s => decide (s ≠ ""))).Nodup
        ∨ (∃ r ∈ rows, r.user ≠ "" ∧ r.user ∈ st.csv_usernames)
        ∨ st.errors ≠ []) →
      blocksCommit (process_rows ctx rows st)
  | [], st, h => by
    simp only [process_rows, blocksCommit]
    rcases h with h | h | h
    · simp at h
    · simp at h
    · exact h
  | row :: rest, st, h => by
    simp only [process_rows]
    cases hs : process_row ctx row st with
    | early st2 => exact trivial
    | cont st2 =>
      apply process_rows_blocks ctx rest st2
      by_cases hne : st2.errors = []
      case neg => exact Or.inr (Or.inr hne)
      case pos =>
        have hcsv := process_row_cont_csv hs
        have hemp := process_row_cont_errors_empty hs hne
        rcases h with h | h | h
        · by_cases hu : row.user = ""
          · refine Or.inl ?_
            simpa [hu] using h
          · have hx : ¬ ((row.user :: (rest.map Row.user).filter (fun s => decide (s ≠ ""))).Nodup) := by
              simpa [hu] using h
            rw [List.nodup_cons] at hx
            push_neg at hx
            by_cases hin : row.user ∈ (rest.map Row.user).filter (fun s => decide (s ≠ ""))
            · obtain ⟨hmem, -⟩ := List.mem_filter.mp hin
              obtain ⟨r2, hr2, hr2u⟩ := List.mem_map.mp hmem
              refine Or.inr (Or.inl ⟨r2, hr2, ?_, ?_⟩)
              · rw [hr2u]; exact hu
              · rw [hr2u]; exact hcsv.2 hu
            · exact Or.inl (hx hin)
        · rcases h with ⟨r2, hr2, hru, hrin⟩
          rcases List.mem_cons.mp hr2 with rfl | hr2
          · rcases hemp.2 with h0 | h0
            · exact absurd h0 hru
            · exact absurd hrin h0
          · exact Or.inr (Or.inl ⟨r2, hr2, hru, hcsv.1 hrin⟩)
        · exact absurd hemp.1 h

/-- C6: an input file listing the same non-empty user identifier on two
or more data rows makes the run return `False` with nothing committed. -/
theorem claim_C6_duplicate_username (cfg : TeamsConfiguration) (db : Database)
    (max_errors : Nat) (file : InputFile)
    (h : ¬ ((file.rows.map Row.user).filter (fun s => decide (s ≠ ""))).Nodup) :
    (set_team_membership_from_csv cfg db max_errors file).returned = some false ∧
    (set_team_membership_from_csv cfg db max_errors file).memberships_added = [] ∧
    (set_team_membership_from_csv cfg db max_errors file).created_teams = [] ∧
    (set_team_membership_from_csv cfg db max_errors file).events = [] ∧
    (set_team_membership_from_csv cfg db max_errors file).number_of_record_added = 0 := by
  cases hv : validate_teamsets cfg (file.header.drop 2) [] with
  | mk e b =>
    cases b with
    | false => simp [set_team_membership_from_csv, hv, failure_result]
    | true =>
      have hrun : set_team_membership_from_csv cfg db max_errors file =
          run_after_gate (mk_ctx cfg db max_errors (file.header.drop 2)) file.rows
            (mk_st0 db (file.header.drop 2)) := by
        simp [set_team_membership_from_csv, hv]
      rw [hrun]
      have hb := process_rows_blocks (mk_ctx cfg db max_errors (file.header.drop 2))
        file.rows (mk_st0 db (file.header.drop 2)) (Or.inl h)
      unfold run_after_gate
      cases hp : process_rows (mk_ctx cfg db max_errors (file.header.drop 2)) file.rows
          (mk_st0 db (file.header.drop 2)) with
      | earlyFalse st => simp [failure_result]
      | done st =>
        rw [hp] at hb
        simp only [blocksCommit] at hb
        simp [hb, failure_result]

/-- Witness for C6 at a concrete file naming `bob` twice. -/
theorem claim_C6_duplicate_username_witness :
    ¬ ((file6.rows.map Row.user).filter (fun s => decide (s ≠ ""))).Nodup ∧
    ((set_team_membership_from_csv cfgC dbC 0 file6).returned = some false ∧
     (set_team_membership_from_csv cfgC dbC 0 file6).memberships_added = [] ∧
     (set_team_membership_from_csv cfgC dbC 0 file6).created_teams = [] ∧
     (set_team_membership_from_csv cfgC dbC 0 file6).events = [] ∧
     (set_team_membership_from_csv cfgC dbC 0 file6).number_of_record_added = 0) :=
  ⟨by decide, claim_C6_duplicate_username cfgC dbC 0 file6 (by decide)⟩

end TeamsCsv

namespace TeamsCsv

/-- Counterexample to C2: with `max_errors = 0`, a run that records an
unresolvable-user error on its first row goes on to process the second
row (recording a not-enrolled error) and the third row (recording another
unresolvable-user error): three errors accumulate in one run, so the
first recorded error did not abort validation. -/
theorem claim_C2_counterexample :
    (set_team_membership_from_csv cfgC dbB 0 fileB).validation_errors =
      [unresolved_user_msg "ghost", not_enrolled_msg "bob",
       unresolved_user_msg "ghost2"] ∧
    (set_team_membership_from_csv cfgC dbB 0 fileB).returned = some false := by
  decide

/-- C2 as amended: with `max_errors = 0`, every error recorded through
`add_error_and_check_if_max_exceeded` stops processing at once — a
duplicate username ends the row loop immediately with no later row
examined, and a teamset-membership conflict or a full team ends
`validate_cell` with `return False` — while unresolvable-user and
not-enrolled errors are appended without the threshold check and the loop
continues with the remaining rows. -/
theorem claim_C2_amended_fail_fast :
    (∀ (ctx : Ctx) (st : LoopState) (row : Row) (rest : List Row),
      ctx.max_errors = 0 → row.user ≠ "" → row.user ∈ st.csv_usernames →
      process_rows ctx (row :: rest) st =
        .earlyFalse { st with errors := st.errors ++ [dup_username_msg row.user] }) ∧
    (∀ (ctx : Ctx) (st : LoopState) (row : Row) (rest : List Row),
      row.user ≠ "" → row.user ∉ st.csv_usernames →
      ctx.db.users.find? (fun u => decide (u.username = row.user)) = none →
      ctx.db.users.find? (fun u => decide (u.email = row.user)) = none →
      process_rows ctx (row :: rest) st =
        process_rows ctx rest
          { st with errors := st.errors ++ [unresolved_user_msg row.user],
                    csv_usernames := st.csv_usernames ++ [row.user] }) ∧
    (∀ (ctx : Ctx) (st : LoopState) (row : Row) (rest : List Row) (u : User),
      row.user ≠ "" → row.user ∉ st.csv_usernames →
      ctx.db.users.find? (fun x => decide (x.username = row.user)) = some u →
      u.id ∉ ctx.db.enrolled_user_ids →
      process_rows ctx (row :: rest) st =
        process_rows ctx rest
          { st with errors := st.errors ++ [not_enrolled_msg u.username],
                    csv_usernames := st.csv_usernames ++ [row.user] }) ∧
    (∀ (ctx : Ctx) (u : User) (r : Row) (ts : String) (st : ValState),
      ctx.max_errors = 0 → r.get ts ≠ "" →
      dict_lookup ctx.teams_cache (r.get ts, ts) = none →
      u.id ∈ lookup_ids st.user_ids_by_teamset_id ts →
      validate_cell ctx u r ts st =
        ({ st with errors := st.errors ++ [already_member_msg u.username ts] }, false)) ∧
    (∀ (ctx : Ctx) (u : User) (r : Row) (ts : String) (st : ValState)
       (team : CourseTeam) (m : Nat),
      ctx.max_errors = 0 → r.get ts ≠ "" →
      dict_lookup ctx.teams_cache (r.get ts, ts) = some team →
      ctx.cfg.default_max_team_size = some m → m ≤ team.member_ids.length →
      validate_cell ctx u r ts st =
        ({ st with errors := st.errors ++ [team_full_msg team.team_id] }, false)) := by
  refine ⟨?_, ?_, ?_, ?_, ?_⟩
  · intro ctx st row rest hm hu hmem
    simp [process_rows, process_row, is_username_unique,
      add_error_and_check_if_max_exceeded, hm, hu, hmem]
  · intro ctx st row rest hu hmem hf1 hf2
    simp [process_rows, process_row, is_username_unique, get_user,
      add_error_and_check_if_max_exceeded, hu, hmem, hf1, hf2]
  · intro ctx st row rest u hu hmem hf1 hen
    simp [process_rows, process_row, is_username_unique, get_user,
      validate_user_enrolled_in_course, add_error_and_check_if_max_exceeded,
      hu, hmem, hf1, hen]
  · intro ctx u r ts st hm hc hl hin
    simp [validate_cell, add_error_and_check_if_max_exceeded, hm, hc, hl, hin]
  · intro ctx u r ts st team m hm hc hl hd hsz
    simp [validate_cell, add_error_and_check_if_max_exceeded, hm, hc, hl, hd, hsz]

/-- Witness for the amended C2, instantiating each conjunct concretely. -/
theorem claim_C2_amended_fail_fast_witness :
    process_rows (mk_ctx cfgC dbC 0 []) [⟨[("user", "bob")]⟩]
        { errors := [], user_ids_by_teamset_id := [], csv_usernames := ["bob"],
          row_dictionaries := [] } =
      .earlyFalse { errors := [] ++ [dup_username_msg "bob"],
                    user_ids_by_teamset_id := [], csv_usernames := ["bob"],
                    row_dictionaries := [] } ∧
    process_rows (mk_ctx cfgC dbC 0 []) [⟨[("user", "ghost")]⟩, ⟨[("user", "zz")]⟩]
        (mk_st0 dbC []) =
      process_rows (mk_ctx cfgC dbC 0 []) [⟨[("user", "zz")]⟩]
        { errors := [] ++ [unresolved_user_msg "ghost"],
          user_ids_by_teamset_id := [], csv_usernames := [] ++ ["ghost"],
          row_dictionaries := [] } ∧
    process_rows (mk_ctx cfgC dbB 0 []) [⟨[("user", "bob")]⟩, ⟨[("user", "zz")]⟩]
        (mk_st0 dbB []) =
      process_rows (mk_ctx cfgC dbB 0 []) [⟨[("user", "zz")]⟩]
        { errors := [] ++ [not_enrolled_msg "bob"],
          user_ids_by_teamset_id := [], csv_usernames := [] ++ ["bob"],
          row_dictionaries := [] } ∧
    validate_cell (mk_ctx cfgC dbC 0 ["ts"]) ⟨7, "eve", "e@x.com"⟩
        ⟨[("user", "eve"), ("ts", "tNew")]⟩ "ts"
        { errors := [], user_ids_by_teamset_id := [("ts", [7])] } =
      ({ errors := [] ++ [already_member_msg "eve" "ts"],
         user_ids_by_teamset_id := [("ts", [7])] }, false) ∧
    validate_cell (mk_ctx cfg3 db3 0 ["ts"]) ⟨1, "bob", "b@x.com"⟩
        ⟨[("user", "bob"), ("ts", "t1")]⟩ "ts"
        { errors := [], user_ids_by_teamset_id := [("ts", [99])] } =
      ({ errors := [] ++ [team_full_msg "t1-id"],
         user_ids_by_teamset_id := [("ts", [99])] }, false) := by
  refine ⟨?_, ?_, ?_, ?_, ?_⟩
  · exact claim_C2_amended_fail_fast.1 _ _ _ _ rfl (by decide) (by decide)
  · exact claim_C2_amended_fail_fast.2.1 _ _ _ _ (by decide) (by decide)
      (by decide) (by decide)
  · exact claim_C2_amended_fail_fast.2.2.1 _ _ _ _ ⟨2, "bob", "b@x.com"⟩
      (by decide) (by decide) (by decide) (by decide)
  · exact claim_C2_amended_fail_fast.2.2.2.1 _ _ _ _ _ rfl (by decide)
      (by decide) (by decide)
  · exact claim_C2_amended_fail_fast.2.2.2.2 _ _ _ _ _ ⟨"t1", "ts", "t1-id", [99]⟩ 1
      rfl (by decide) (by decide) rfl (by decide)

/-- C8: `get_user` resolves an identifier by exact username first, by
exact email only when no username matches, and otherwise records an
error; an unresolvable row is skipped (contributing no resolved user, no
assignment checks and no dictionary entry) while the loop continues with
the remaining rows. -/
theorem claim_C8_user_resolution :
    (∀ (db : Database) (e : List String) (n : String) (u : User),
      db.users.find? (fun x => decide (x.username = n)) = some u →
      get_user db e n = (some u, e)) ∧
    (∀ (db : Database) (e : List String) (n : String) (u : User),
      db.users.find? (fun x => decide (x.username = n)) = none →
      db.users.find? (fun x => decide (x.email = n)) = some u →
      get_user db e n = (some u, e)) ∧
    (∀ (db : Database) (e : List String) (n : String),
      db.users.find? (fun x => decide (x.username = n)) = none →
      db.users.find? (fun x => decide (x.email = n)) = none →
      get_user db e n = (none, e ++ [unresolved_user_msg n])) ∧
    (∀ (ctx : Ctx) (st : LoopState) (row : Row) (rest : List Row),
      row.user ≠ "" → row.user ∉ st.csv_usernames →
      ctx.db.users.find? (fun u => decide (u.username = row.user)) = none →
      ctx.db.users.find? (fun u => decide (u.email = row.user)) = none →
      process_rows ctx (row :: rest) st =
        process_rows ctx rest
          { st with errors := st.errors ++ [unresolved_user_msg row.user],
                    csv_usernames := st.csv_usernames ++ [row.user] }) := by
  refine ⟨?_, ?_, ?_, ?_⟩
  · intro db e n u h1
    simp [get_user, h1]
  · intro db e n u h1 h2
    simp [get_user, h1, h2]
  · intro db e n h1 h2
    simp [get_user, h1, h2]
  · intro ctx st row rest hu hmem hf1 hf2
    simp [process_rows, process_row, is_username_unique, get_user,
      add_error_and_check_if_max_exceeded, hu, hmem, hf1, hf2]

/-- Witness for C8: `alice` resolves by username even though another
user's email is the string `alice`; an email resolves when no username
matches; an unknown identifier records an error and the loop moves on. -/
theorem claim_C8_user_resolution_witness :
    get_user ⟨[⟨1, "alice", "a@x.com"⟩, ⟨2, "eve", "alice"⟩], [1, 2], []⟩ []
        "alice" = (some ⟨1, "alice", "a@x.com"⟩, []) ∧
    get_user ⟨[⟨1, "alice", "a@x.com"⟩, ⟨2, "eve", "alice"⟩], [1, 2], []⟩ []
        "a@x.com" = (some ⟨1, "alice", "a@x.com"⟩, []) ∧
    get_user ⟨[⟨1, "alice", "a@x.com"⟩], [1], []⟩ [] "zz" =
      (none, [] ++ [unresolved_user_msg "zz"]) ∧
    process_rows (mk_ctx cfgC dbC 0 []) [⟨[("user", "nobody")]⟩, ⟨[("user", "bob")]⟩]
        (mk_st0 dbC []) =
      process_rows (mk_ctx cfgC dbC 0 []) [⟨[("user", "bob")]⟩]
        { errors := [] ++ [unresolved_user_msg "nobody"],
          user_ids_by_teamset_id := [], csv_usernames := [] ++ ["nobody"],
          row_dictionaries := [] } := by
  refine ⟨?_, ?_, ?_, ?_⟩
  · exact claim_C8_user_resolution.1 _ _ _ _ (by decide)
  · exact claim_C8_user_resolution.2.1 _ _ _ _ (by decide) (by decide)
  · exact claim_C8_user_resolution.2.2.1 _ _ _ (by decide) (by decide)
  · exact claim_C8_user_resolution.2.2.2 _ _ _ _ (by decide) (by decide)
      (by decide) (by decide)

end TeamsCsv

namespace TeamsCsv

/-- Counterexample to C3: the teamset `ts` has no configured maximum team
size, so by the claim the capacity check is skipped; still the run
records a team-full error, because the code reads the course-wide
`default_max_team_size` (here 1) instead of the teamset's own maximum. -/
theorem claim_C3_counterexample :
    cfg3.teamsets.map (fun c => (c.teamset_id, c.max_team_size)) = [("ts", none)] ∧
    (set_team_membership_from_csv cfg3 db3 0 fileC).validation_errors =
      [team_full_msg "t1-id"] ∧
    (set_team_membership_from_csv cfg3 db3 0 fileC).returned = some false := by
  decide

/-- C3 as amended: for a cell naming an existing team (with no membership
conflict, isolating the capacity check), the importer compares the team's
member count against the course-wide `default_max_team_size` — not the
teamset's own maximum — skipping the check only when no default is
configured, and records a team-full error exactly when the count is at or
above that default. -/
theorem claim_C3_amended_default_max (ctx : Ctx) (u : User) (r : Row)
    (ts : String) (st : ValState) (team : CourseTeam)
    (hc : r.get ts ≠ "")
    (hl : dict_lookup ctx.teams_cache (r.get ts, ts) = some team)
    (hmem : (u.id, team.topic_id) ∉ ctx.memberships) :
    ((validate_cell ctx u r ts st).1).errors =
      st.errors ++ (match ctx.cfg.default_max_team_size with
        | none => []
        | some m =>
          if m ≤ team.member_ids.length then [team_full_msg team.team_id] else []) := by
  have hc2 : ¬ (r.get ts = "") := hc
  simp only [validate_cell, add_error_and_check_if_max_exceeded, if_neg hc2, hl]
  cases hd : ctx.cfg.default_max_team_size with
  | none => simp [hmem]
  | some m =>
    by_cases hs : m ≤ team.member_ids.length
    · simp only [ge_iff_le, if_pos hs]
      split <;> simp [hmem, hs]
    · simp [ge_iff_le, hs, hmem]

/-- Witness for the amended C3 at the concrete full-team fixture. -/
theorem claim_C3_amended_default_max_witness :
    ((validate_cell (mk_ctx cfg3 db3 0 ["ts"]) ⟨1, "bob", "b@x.com"⟩
        ⟨[("user", "bob"), ("ts", "t1")]⟩ "ts"
        { errors := [], user_ids_by_teamset_id := [("ts", [99])] }).1).errors =
      [] ++ (match (mk_ctx cfg3 db3 0 ["ts"]).cfg.default_max_team_size with
        | none => []
        | some m =>
          if m ≤ (CourseTeam.mk "t1" "ts" "t1-id" [99]).member_ids.length
          then [team_full_msg (CourseTeam.mk "t1" "ts" "t1-id" [99]).team_id]
          else []) :=
  claim_C3_amended_default_max (mk_ctx cfg3 db3 0 ["ts"]) ⟨1, "bob", "b@x.com"⟩
    ⟨[("user", "bob"), ("ts", "t1")]⟩ "ts"
    { errors := [], user_ids_by_teamset_id := [("ts", [99])] }
    ⟨"t1", "ts", "t1-id", [99]⟩ (by decide) (by decide) (by decide)

/-- C4 at its failing input: `bob` is enrolled, team `t1` exists and has
room, validation finishes with zero errors — yet the commit phase never
binds its local `team` from the cache, so the run raises (returns
nothing) and adds no membership, no event and no record, where the claim
promises one added membership, a matching counter and `True`. -/
theorem claim_C4_code_bug_eval :
    (set_team_membership_from_csv cfgC dbC 0 fileC).validation_errors = [] ∧
    (set_team_membership_from_csv cfgC dbC 0 fileC).returned = none ∧
    (set_team_membership_from_csv cfgC dbC 0 fileC).memberships_added = [] ∧
    (set_team_membership_from_csv cfgC dbC 0 fileC).number_of_record_added = 0 ∧
    (set_team_membership_from_csv cfgC dbC 0 fileC).events = [] := by
  decide

/-- Counterexample to C9: in `file9` the second row's cell (naming the
pre-existing team `tB`) is not the first non-empty cell of the commit
phase — the first row already created team `tA` — yet the run raises
instead of adding `bob` to a leftover team: `team` is local to each
`add_user_to_team` call, so it is unbound again on the second row. -/
theorem claim_C9_counterexample :
    (set_team_membership_from_csv cfgC db9 0 file9).validation_errors = [] ∧
    (set_team_membership_from_csv cfgC db9 0 file9).returned = none ∧
    (set_team_membership_from_csv cfgC db9 0 file9).created_teams = [(0, "tA", "ts")] ∧
    (set_team_membership_from_csv cfgC db9 0 file9).memberships_added =
      [(1, TeamRef.created 0 "tA" "ts")] ∧
    (set_team_membership_from_csv cfgC db9 0 file9).events =
      [(TeamRef.created 0 "tA" "ts", 1)] := by
  decide

/-- C9 as amended: the commit-phase local `team` is reset at every call
of `add_user_to_team`, i.e. per row. A cell naming a cached team never
binds it: if no earlier cell of the same row took the create branch the
call raises with the writes so far unchanged; otherwise the user is
added — and the event emitted — for the most recently created team of
that same row rather than the team named in the cell. -/
theorem claim_C9_amended_unbound_local :
    (∀ (ctx : Ctx) (cs : CommitState) (ur : User × Row),
      add_user_to_team ctx cs ur = commit_cells ctx ur.1 ur.2 ctx.teamset_ids none cs) ∧
    (∀ (ctx : Ctx) (user : User) (row : Row) (ts : String) (rest : List String)
       (cs : CommitState) (tm : CourseTeam),
      row.get ts ≠ "" → dict_lookup ctx.teams_cache (row.get ts, ts) = some tm →
      commit_cells ctx user row (ts :: rest) none cs = (cs, true)) ∧
    (∀ (ctx : Ctx) (user : User) (row : Row) (ts : String) (rest : List String)
       (cs : CommitState) (tm : CourseTeam) (t : TeamRef),
      row.get ts ≠ "" → dict_lookup ctx.teams_cache (row.get ts, ts) = some tm →
      commit_cells ctx user row (ts :: rest) (some t) cs =
        commit_cells ctx user row rest (some t)
          { cs with memberships_added := cs.memberships_added ++ [(user.id, t)],
                    events := cs.events ++ [(t, user.id)],
                    number_of_record_added := cs.number_of_record_added + 1 }) := by
  refine ⟨?_, ?_, ?_⟩
  · intro ctx cs ur
    rfl
  · intro ctx user row ts rest cs tm hc hl
    simp [commit_cells, hc, hl]
  · intro ctx user row ts rest cs tm t hc hl
    simp [commit_cells, hc, hl]

/-- Witness for the amended C9 at the `file9` fixture data. -/
theorem claim_C9_amended_unbound_local_witness :
    add_user_to_team (mk_ctx cfgC db9 0 ["ts"])
        ⟨[], [], [], 0⟩ (⟨2, "bob", "b@x.com"⟩, ⟨[("user", "bob"), ("ts", "tB")]⟩) =
      commit_cells (mk_ctx cfgC db9 0 ["ts"]) ⟨2, "bob", "b@x.com"⟩
        ⟨[("user", "bob"), ("ts", "tB")]⟩ (mk_ctx cfgC db9 0 ["ts"]).teamset_ids none
        ⟨[], [], [], 0⟩ ∧
    commit_cells (mk_ctx cfgC db9 0 ["ts"]) ⟨2, "bob", "b@x.com"⟩
        ⟨[("user", "bob"), ("ts", "tB")]⟩ ["ts"] none ⟨[], [], [], 0⟩ =
      (⟨[], [], [], 0⟩, true) ∧
    commit_cells (mk_ctx cfgC db9 0 ["ts"]) ⟨2, "bob", "b@x.com"⟩
        ⟨[("user", "bob"), ("ts", "tB")]⟩ ["ts"]
        (some (TeamRef.created 0 "tA" "ts")) ⟨[], [], [], 0⟩ =
      commit_cells (mk_ctx cfgC db9 0 ["ts"]) ⟨2, "bob", "b@x.com"⟩
        ⟨[("user", "bob"), ("ts", "tB")]⟩ []
        (some (TeamRef.created 0 "tA" "ts"))
        { created_teams := [],
          memberships_added := [] ++ [(2, TeamRef.created 0 "tA" "ts")],
          events := [] ++ [(TeamRef.created 0 "tA" "ts", 2)],
          number_of_record_added := 0 + 1 } :=
  ⟨claim_C9_amended_unbound_local.1 _ _ _,
   claim_C9_amended_unbound_local.2.1 _ _ _ _ _ _ ⟨"tB", "ts", "tB-id", []⟩
     (by decide) (by decide),
   claim_C9_amended_unbound_local.2.2 _ _ _ _ _ _ ⟨"tB", "ts", "tB-id", []⟩ _
     (by decide) (by decide)⟩

/-- Counterexample to C7: `bob` already holds a membership in teamset
`ts` (through team `t2`), the cell names the existing team `t1`, and the
claim asks for an already-a-member error for this assignment; but the
team-full error on `t1` reaches the zero threshold first, validation
aborts mid-cell, and no already-a-member error is ever accumulated. -/
theorem claim_C7_counterexample :
    (1, "ts") ∈ load_course_team_memberships db7 ∧
    dict_lookup (load_course_teams db7) ("t1", "ts") =
      some ⟨"t1", "ts", "t1-id", [99]⟩ ∧
    (set_team_membership_from_csv cfg3 db7 0 fileC).validation_errors =
      [team_full_msg "t1-id"] ∧
    already_member_msg "bob" "ts" ∉
      (set_team_membership_from_csv cfg3 db7 0 fileC).validation_errors := by
  decide

/-- C7 as amended: a non-empty cell assigning a resolved, enrolled user
to a teamset they already belong to accumulates an already-a-member
error — through the membership cache when the named team exists, through
the live per-teamset id set when it does not — except when the named team
exists, is at or over the default maximum size, and the team-full error
reaches the error threshold first, which aborts the cell before the
membership check. -/
theorem claim_C7_amended_already_member :
    (∀ (ctx : Ctx) (u : User) (r : Row) (ts : String) (st : ValState)
       (team : CourseTeam),
      r.get ts ≠ "" →
      dict_lookup ctx.teams_cache (r.get ts, ts) = some team →
      (u.id, team.topic_id) ∈ ctx.memberships →
      ¬ (∃ m, ctx.cfg.default_max_team_size = some m ∧ m ≤ team.member_ids.length ∧
          ctx.max_errors ≤ st.errors.length + 1) →
      already_member_msg u.username team.topic_id ∈
        ((validate_cell ctx u r ts st).1).errors) ∧
    (∀ (ctx : Ctx) (u : User) (r : Row) (ts : String) (st : ValState),
      r.get ts ≠ "" →
      dict_lookup ctx.teams_cache (r.get ts, ts) = none →
      u.id ∈ lookup_ids st.user_ids_by_teamset_id ts →
      already_member_msg u.username ts ∈ ((validate_cell ctx u r ts st).1).errors) := by
  constructor
  · intro ctx u r ts st team hc hl hmem hnf
    have hc2 : ¬ (r.get ts = "") := hc
    simp only [validate_cell, add_error_and_check_if_max_exceeded, if_neg hc2, hl]
    cases hd : ctx.cfg.default_max_team_size with
    | none =>
      simp only [if_pos hmem]
      split
      · split <;> simp
      · simp_all
    | some m =>
      by_cases hs : m ≤ team.member_ids.length
      · push_neg at hnf
        have hth := hnf m hd hs
        have hdec : (decide (ctx.max_errors ≤
            (st.errors ++ [team_full_msg team.team_id]).length)) = false := by
          simp
          omega
        simp only [ge_iff_le, if_pos hs, hdec, Bool.not_false, if_pos hmem]
        split
        · split <;> simp
        · simp_all
      · simp only [ge_iff_le, if_neg hs, if_pos hmem]
        split
        · split <;> simp
        · simp_all
  · intro ctx u r ts st hc hl hin
    have hc2 : ¬ (r.get ts = "") := hc
    simp only [validate_cell, add_error_and_check_if_max_exceeded, if_neg hc2, hl,
      if_pos hin]
    split <;> simp

/-- Witness for the amended C7: the cache-hit case (via `db7`, no size
default configured) and the live-set case. -/
theorem claim_C7_amended_already_member_witness :
    already_member_msg "bob" "ts" ∈
      ((validate_cell (mk_ctx cfgC db7 0 ["ts"]) ⟨1, "bob", "b@x.com"⟩
        ⟨[("user", "bob"), ("ts", "t1")]⟩ "ts"
        { errors := [], user_ids_by_teamset_id := [("ts", [99, 1])] }).1).errors ∧
    already_member_msg "eve" "ts" ∈
      ((validate_cell (mk_ctx cfgC dbC 0 ["ts"]) ⟨7, "eve", "e@x.com"⟩
        ⟨[("user", "eve"), ("ts", "tNew")]⟩ "ts"
        { errors := [], user_ids_by_teamset_id := [("ts", [7])] }).1).errors :=
  ⟨claim_C7_amended_already_member.1 (mk_ctx cfgC db7 0 ["ts"]) ⟨1, "bob", "b@x.com"⟩
     ⟨[("user", "bob"), ("ts", "t1")]⟩ "ts"
     { errors := [], user_ids_by_teamset_id := [("ts", [99, 1])] }
     ⟨"t1", "ts", "t1-id", [99]⟩ (by decide) (by decide) (by decide)
     (fun hx => Option.noConfusion hx.choose_spec.1),
   claim_C7_amended_already_member.2 (mk_ctx cfgC dbC 0 ["ts"]) ⟨7, "eve", "e@x.com"⟩
     ⟨[("user", "eve"), ("ts", "tNew")]⟩ "ts"
     { errors := [], user_ids_by_teamset_id := [("ts", [7])] }
     (by decide) (by decide) (by decide)⟩

end TeamsCsv

namespace TeamsCsv

/-! Helper lemmas for the commit phase. -/

lemma sublist_sum_le {l1 l2 : List Nat} (h : l1.Sublist l2) : l1.sum ≤ l2.sum := by
  induction h with
  | slnil => exact Nat.le_refl 0
  | cons a h ih =>
    simp only [List.sum_cons]
    exact Nat.le_trans ih (Nat.le_add_left _ _)
  | cons₂ a h ih =>
    simp only [List.sum_cons]
    exact Nat.add_le_add_left ih a

lemma pair_sublist {α : Type} {l : List α} {i j : Nat} {a b : α}
    (hij : i < j) (hi : l[i]? = some a) (hj : l[j]? = some b) :
    ([a, b]).Sublist l := by
  have hil : i < l.length := by
    by_contra hx
    push_neg at hx
    rw [List.getElem?_eq_none hx] at hi
    exact Option.noConfusion hi
  have hia : l[i] = a := by
    rw [List.getElem?_eq_getElem hil] at hi
    exact Option.some.inj hi
  have hd : l.drop i = a :: l.drop (i + 1) := by
    rw [List.drop_eq_getElem_cons hil, hia]
  have hjd : (l.drop (i + 1))[j - (i + 1)]? = some b := by
    rw [List.getElem?_drop]
    have hh : i + 1 + (j - (i + 1)) = j := by omega
    rw [hh]
    exact hj
  have hbm : b ∈ l.drop (i + 1) := List.getElem?_mem hjd
  have h1 : ([a, b]).Sublist (l.drop i) := by
    rw [hd]
    exact List.Sublist.cons₂ a (List.singleton_sublist.mpr hbm)
  exact h1.trans (List.drop_sublist i l)

lemma get_user_none {db : Database} {e p : List String} {n : String}
    (h : get_user db e n = (none, p)) : p = e ++ [unresolved_user_msg n] := by
  simp only [get_user] at h
  split at h
  · simp at h
  · split at h
    · simp at h
    · cases h
      rfl

lemma validate_user_enrolled_false {db : Database} {e p : List String} {user : User}
    (h : validate_user_enrolled_in_course db e user = (p, false)) :
    p = e ++ [not_enrolled_msg user.username] := by
  simp only [validate_user_enrolled_in_course] at h
  split at h
  · simp at h
  · cases h
    rfl

lemma process_row_cont_rd {ctx : Ctx} {row : Row} {st st2 : LoopState}
    (h : process_row ctx row st = .cont st2) (he : st2.errors = []) :
    st2.row_dictionaries.map Prod.snd =
      st.row_dictionaries.map Prod.snd ++ (if row.user = "" then [] else [row]) := by
  simp only [process_row] at h
  split at h
  · rename_i hu
    cases h
    simp [hu]
  · rename_i hu
    cases h1 : is_username_unique ctx.max_errors st.errors row.user st.csv_usernames with
    | mk e2 b =>
      rw [h1] at h
      cases b with
      | false => simp at h
      | true =>
        simp only [] at h
        cases h2 : get_user ctx.db e2 row.user with
        | mk uo e3 =>
          rw [h2] at h
          cases uo with
          | none =>
            simp only [] at h
            cases h
            have he2 : e3 = [] := he
            rw [get_user_none h2] at he2
            simp at he2
          | some user =>
            simp only [] at h
            cases h3 : validate_user_enrolled_in_course ctx.db e3 user with
            | mk e4 b4 =>
              rw [h3] at h
              cases b4 with
              | false =>
                simp only [] at h
                cases h
                have he2 : e4 = [] := he
                rw [validate_user_enrolled_false h3] at he2
                simp at he2
              | true =>
                simp only [] at h
                cases h4 : validate_user_assignment_to_team_and_teamset ctx user row
                    { errors := e4, user_ids_by_teamset_id := st.user_ids_by_teamset_id } with
                | mk vst b5 =>
                  rw [h4] at h
                  cases b5 with
                  | false => simp at h
                  | true =>
                    simp only [] at h
                    cases h
                    simp [hu]

lemma process_rows_done_rd (ctx : Ctx) :
    ∀ (rows : List Row) (st st2 : LoopState),
      process_rows ctx rows st = .done st2 → st2.errors = [] →
      st2.row_dictionaries.map Prod.snd =
        st.row_dictionaries.map Prod.snd ++ rows.filter (fun r => decide (r.user ≠ ""))
  | [], st, st2, h, he => by
    cases h
    simp
  | row :: rest, st, st2, h, he => by
    simp only [process_rows] at h
    cases hs : process_row ctx row st with
    | early st3 =>
      rw [hs] at h
      simp at h
    | cont st3 =>
      rw [hs] at h
      have he3 : st3.errors = [] := process_rows_done_errors_empty ctx rest st3 st2 h he
      have h1 := process_row_cont_rd hs he3
      have ih := process_rows_done_rd ctx rest st3 st2 h he
      rw [ih, h1]
      by_cases hu : row.user = ""
      · simp [hu]
      · simp [hu]

lemma commit_cells_pairs (ctx : Ctx) (u : User) (r : Row) :
    ∀ (tss : List String) (team : Option TeamRef) (cs cs' : CommitState),
      commit_cells ctx u r tss team cs = (cs', false) →
      cs'.created_teams.map (fun c => c.2) =
        cs.created_teams.map (fun c => c.2) ++ row_new_team_pairs ctx r tss
  | [], team, cs, cs', h => by
    simp only [commit_cells] at h
    cases h
    simp [row_new_team_pairs]
  | ts :: rest, team, cs, cs', h => by
    simp only [commit_cells] at h
    by_cases hc : r.get ts = ""
    · rw [if_pos hc] at h
      have ih := commit_cells_pairs ctx u r rest team cs cs' h
      rw [ih]
      simp [row_new_team_pairs, hc]
    · rw [if_neg hc] at h
      cases hl : dict_lookup ctx.teams_cache (r.get ts, ts) with
      | none =>
        simp only [hl, Option.isNone_none, if_true] at h
        have ih := commit_cells_pairs ctx u r rest
          (some (TeamRef.created cs.created_teams.length (r.get ts) ts)) _ cs' h
        rw [ih]
        simp [row_new_team_pairs, hc, hl, List.filterMap_cons]
      | some tm =>
        simp only [hl] at h
        simp only [Option.isNone_some, Bool.false_eq_true, if_false] at h
        cases team with
        | none => simp at h
        | some t =>
          simp only [] at h
          have ih := commit_cells_pairs ctx u r rest (some t) _ cs' h
          rw [ih]
          simp [row_new_team_pairs, hc, hl, List.filterMap_cons]

lemma commit_cells_idx (ctx : Ctx) (u : User) (r : Row) :
    ∀ (tss : List String) (team : Option TeamRef) (cs cs' : CommitState) (b : Bool),
      commit_cells ctx u r tss team cs = (cs', b) →
      cs.created_teams.map (fun c => c.1) = List.range cs.created_teams.length →
      cs'.created_teams.map (fun c => c.1) = List.range cs'.created_teams.length
  | [], team, cs, cs', b, h, hinv => by
    simp only [commit_cells] at h
    cases h
    exact hinv
  | ts :: rest, team, cs, cs', b, h, hinv => by
    simp only [commit_cells] at h
    by_cases hc : r.get ts = ""
    · rw [if_pos hc] at h
      exact commit_cells_idx ctx u r rest team cs cs' b h hinv
    · rw [if_neg hc] at h
      cases hl : dict_lookup ctx.teams_cache (r.get ts, ts) with
      | none =>
        simp only [hl, Option.isNone_none, if_true] at h
        refine commit_cells_idx ctx u r rest _ _ cs' b h ?_
        simp [hinv, List.range_succ]
      | some tm =>
        simp only [hl] at h
        simp only [Option.isNone_some, Bool.false_eq_true, if_false] at h
        cases team with
        | none =>
          cases h
          exact hinv
        | some t =>
          simp only [] at h
          exact commit_cells_idx ctx u r rest (some t) _ cs' b h hinv

lemma commit_rows_pairs (ctx : Ctx) :
    ∀ (rds : List (User × Row)) (cs cs' : CommitState),
      commit_rows ctx rds cs = (cs', false) →
      cs'.created_teams.map (fun c => c.2) =
        cs.created_teams.map (fun c => c.2) ++
          (rds.map (fun ur => row_new_team_pairs ctx ur.2 ctx.teamset_ids)).flatten
  | [], cs, cs', h => by
    simp only [commit_rows] at h
    cases h
    simp
  | ur :: rest, cs, cs', h => by
    simp only [commit_rows, add_user_to_team] at h
    cases ha : commit_cells ctx ur.1 ur.2 ctx.teamset_ids none cs with
    | mk cs2 b =>
      rw [ha] at h
      cases b with
      | true => simp at h
      | false =>
        simp only [] at h
        have ih := commit_rows_pairs ctx rest cs2 cs' h
        have hp := commit_cells_pairs ctx ur.1 ur.2 ctx.teamset_ids none cs cs2 ha
        rw [ih, hp]
        simp

lemma commit_rows_idx (ctx : Ctx) :
    ∀ (rds : List (User × Row)) (cs cs' : CommitState) (b : Bool),
      commit_rows ctx rds cs = (cs', b) →
      cs.created_teams.map (fun c => c.1) = List.range cs.created_teams.length →
      cs'.created_teams.map (fun c => c.1) = List.range cs'.created_teams.length
  | [], cs, cs', b, h, hinv => by
    simp only [commit_rows] at h
    cases h
    exact hinv
  | ur :: rest, cs, cs', b, h, hinv => by
    simp only [commit_rows, add_user_to_team] at h
    cases ha : commit_cells ctx ur.1 ur.2 ctx.teamset_ids none cs with
    | mk cs2 b2 =>
      rw [ha] at h
      have hinv2 := commit_cells_idx ctx ur.1 ur.2 ctx.teamset_ids none cs cs2 b2 ha hinv
      cases b2 with
      | true =>
        simp only [] at h
        cases h
        exact hinv2
      | false =>
        simp only [] at h
        exact commit_rows_idx ctx rest cs2 cs' b h hinv2

end TeamsCsv

namespace TeamsCsv

/-- C10: the commit phase never inserts the teams it creates into the
`existing_course_teams` cache, so a successful run whose file contains
two rows each assigning a user to the same not-yet-existing
`(team name, teamset)` pair performs two separate team creations for that
pair — two distinct teams (every creation record carries a distinct
index) with identical name and teamset. -/
theorem claim_C10_duplicate_team_creation (cfg : TeamsConfiguration) (db : Database)
    (max_errors : Nat) (file : InputFile) (name ts : String) (i j : Nat) (ri rj : Row)
    (hr : (set_team_membership_from_csv cfg db max_errors file).returned = some true)
    (hij : i < j) (hi : file.rows[i]? = some ri) (hj : file.rows[j]? = some rj)
    (hui : ri.user ≠ "") (huj : rj.user ≠ "")
    (hci : ri.get ts = name) (hcj : rj.get ts = name) (hn : name ≠ "")
    (hts : ts ∈ file.header.drop 2)
    (hcache : dict_lookup (load_course_teams db) (name, ts) = none) :
    2 ≤ (set_team_membership_from_csv cfg db max_errors file).created_teams.countP
        (fun c => decide (c.2 = (name, ts))) ∧
    ((set_team_membership_from_csv cfg db max_errors file).created_teams.map
        (fun c => c.1)).Nodup := by
  cases hv : validate_teamsets cfg (file.header.drop 2) [] with
  | mk e b =>
    cases b with
    | false =>
      rw [show set_team_membership_from_csv cfg db max_errors file = failure_result e by
        simp [set_team_membership_from_csv, hv]] at hr
      simp [failure_result] at hr
    | true =>
      have hrun : set_team_membership_from_csv cfg db max_errors file =
          run_after_gate (mk_ctx cfg db max_errors (file.header.drop 2)) file.rows
            (mk_st0 db (file.header.drop 2)) := by
        simp [set_team_membership_from_csv, hv]
      rw [hrun] at hr ⊢
      unfold run_after_gate at hr ⊢
      cases hp : process_rows (mk_ctx cfg db max_errors (file.header.drop 2)) file.rows
          (mk_st0 db (file.header.drop 2)) with
      | earlyFalse st =>
        rw [hp] at hr
        simp [failure_result] at hr
      | done st =>
        rw [hp] at hr
        simp only [] at hr ⊢
        by_cases hee : st.errors = []
        · rw [if_pos hee] at hr ⊢
          simp only [] at hr ⊢
          cases hcr : commit_rows (mk_ctx cfg db max_errors (file.header.drop 2))
              st.row_dictionaries
              { created_teams := [], memberships_added := [], events := [],
                number_of_record_added := 0 } with
          | mk cs2 raised =>
            rw [hcr] at hr
            cases raised with
            | true => simp at hr
            | false =>
              simp only []
              have hpairs := commit_rows_pairs
                (mk_ctx cfg db max_errors (file.header.drop 2)) st.row_dictionaries
                { created_teams := [], memberships_added := [], events := [],
                  number_of_record_added := 0 } cs2 hcr
              simp only [List.map_nil, List.nil_append] at hpairs
              have hrd := process_rows_done_rd
                (mk_ctx cfg db max_errors (file.header.drop 2)) file.rows
                (mk_st0 db (file.header.drop 2)) st hp hee
              simp only [mk_st0, List.map_nil, List.nil_append] at hrd
              constructor
              · have hcount : ((cs2.created_teams.map (fun c => c.2)).countP
                    (fun q => decide (q = (name, ts)))) =
                    cs2.created_teams.countP (fun c => decide (c.2 = (name, ts))) :=
                  List.countP_map _ _ _
                rw [← hcount, hpairs]
                have h6 : (st.row_dictionaries.map (fun ur =>
                    row_new_team_pairs (mk_ctx cfg db max_errors (file.header.drop 2))
                      ur.2 (mk_ctx cfg db max_errors (file.header.drop 2)).teamset_ids)) =
                    ((st.row_dictionaries.map Prod.snd).map (fun r =>
                      row_new_team_pairs (mk_ctx cfg db max_errors (file.header.drop 2))
                        r (mk_ctx cfg db max_errors (file.header.drop 2)).teamset_ids)) := by
                  rw [List.map_map]
                  rfl
                rw [h6, hrd]
                rw [List.countP_flatten]
                have hslr : ([ri, rj]).Sublist file.rows := pair_sublist hij hi hj
                have hfp : ([ri, rj]).filter (fun r => decide (r.user ≠ "")) = [ri, rj] := by
                  simp [hui, huj]
                have hsl2 : ([ri, rj]).Sublist
                    (file.rows.filter (fun r => decide (r.user ≠ ""))) := by
                  rw [← hfp]
                  exact hslr.filter _
                have hmemi : (name, ts) ∈ row_new_team_pairs
                    (mk_ctx cfg db max_errors (file.header.drop 2)) ri
                    (mk_ctx cfg db max_errors (file.header.drop 2)).teamset_ids := by
                  apply List.mem_filterMap.mpr
                  refine ⟨ts, hts, ?_⟩
                  rw [hci]
                  simp only [mk_ctx]
                  simp [hn, hcache]
                have hmemj : (name, ts) ∈ row_new_team_pairs
                    (mk_ctx cfg db max_errors (file.header.drop 2)) rj
                    (mk_ctx cfg db max_errors (file.header.drop 2)).teamset_ids := by
                  apply List.mem_filterMap.mpr
                  refine ⟨ts, hts, ?_⟩
                  rw [hcj]
                  simp only [mk_ctx]
                  simp [hn, hcache]
                have hsl3 := (hsl2.map (fun r =>
                  row_new_team_pairs (mk_ctx cfg db max_errors (file.header.drop 2)) r
                    (mk_ctx cfg db max_errors (file.header.drop 2)).teamset_ids)).map
                  (List.countP (fun q => decide (q = (name, ts))))
                have hsum := sublist_sum_le hsl3
                refine Nat.le_trans ?_ hsum
                simp only [List.map_cons, List.map_nil, List.sum_cons, List.sum_nil]
                have hri : 0 < (row_new_team_pairs
                    (mk_ctx cfg db max_errors (file.header.drop 2)) ri
                    (mk_ctx cfg db max_errors (file.header.drop 2)).teamset_ids).countP
                    (fun q => decide (q = (name, ts))) := by
                  rw [List.countP_pos_iff]
                  exact ⟨(name, ts), hmemi, by simp⟩
                have hrj : 0 < (row_new_team_pairs
                    (mk_ctx cfg db max_errors (file.header.drop 2)) rj
                    (mk_ctx cfg db max_errors (file.header.drop 2)).teamset_ids).countP
                    (fun q => decide (q = (name, ts))) := by
                  rw [List.countP_pos_iff]
                  exact ⟨(name, ts), hmemj, by simp⟩
                omega
              · have hidx := commit_rows_idx
                  (mk_ctx cfg db max_errors (file.header.drop 2)) st.row_dictionaries
                  { created_teams := [], memberships_added := [], events := [],
                    number_of_record_added := 0 } cs2 false hcr (by simp)
                rw [hidx]
                exact List.nodup_range _
        · rw [if_neg hee] at hr
          simp [failure_result] at hr

/-- Witness for C10 at the two-row `tN` fixture: the run succeeds and
creates two teams named `tN` in teamset `ts`. -/
theorem claim_C10_duplicate_team_creation_witness :
    (set_team_membership_from_csv cfgC db10 0 file10).returned = some true ∧
    (2 ≤ (set_team_membership_from_csv cfgC db10 0 file10).created_teams.countP
        (fun c => decide (c.2 = ("tN", "ts"))) ∧
     ((set_team_membership_from_csv cfgC db10 0 file10).created_teams.map
        (fun c => c.1)).Nodup) :=
  ⟨by decide,
   claim_C10_duplicate_team_creation cfgC db10 0 file10 "tN" "ts" 0 1
     ⟨[("user", "alice"), ("ts", "tN")]⟩ ⟨[("user", "bob"), ("ts", "tN")]⟩
     (by decide) (by decide) (by decide) (by decide) (by decide) (by decide)
     (by decide) (by decide) (by decide) (by decide) (by decide)⟩

end TeamsCsv
